import Mathlib

/-!
Shallow embedding of the fee-ledger and attendance logic of the
SVCET-Attendance-Tracker repository.

Fees (FeesManager component): the five-category fee profile per student, the
Edit Fees mutation (FeeFormDialog feeding handleSaveFee), the Add Payment
mutation (PaymentDialog feeding handleAddPayment, a Firestore transaction that
updates the profile document and appends one FeeTransaction row), and the
dashboard summary (feesSummary).  JS numbers are modelled as Int; Firestore
timestamps as Nat ticks; the fees collection as a function from document id to
an optional Fee; the per-profile transactions sub-collection as one global
append-only list of FeeTransaction rows.

Attendance (StudentAttendanceGridContent, WorkingDaysPage): the per-day status
classification and the working-day / present-day tallies over the year, keyed
by formatted date strings, against an attendance map (one entry per absence
record) and a working-days calendar map (dates absent from the map default to
holiday), plus the working-days page day-click handler with its Sunday guard.
-/

namespace SVCET

/-- Fee categories, the fixed enumerated set from lib/types.ts. -/
inductive FeeCategory where
  | tuition
  | exam
  | transport
  | hostel
  | registration
deriving DecidableEq, Repr

/-- All five categories, in the order of the feeCategories constant in the
FeesManager component. -/
def feeCategories : List FeeCategory :=
  [.tuition, .exam, .transport, .hostel, .registration]

/-- One {total, paid, balance} triple of a fee category (FeeItem in
lib/types.ts); JS numbers modelled as Int. -/
structure FeeItem where
  total : Int
  paid : Int
  balance : Int
deriving DecidableEq, Repr

/-- Default category entry used by getStudentFeeProfile and handleSaveFee:
{ total: 0, paid: 0, balance: 0 }. -/
def defaultFeeItem : FeeItem := ⟨0, 0, 0⟩

/-- A fee profile document (Fee in lib/types.ts): one per student, document id
equal to the studentId.  updatedAt is a Nat tick standing for the Firestore
timestamp. -/
structure Fee where
  id : String
  studentId : String
  studentName : String
  classId : String
  registerNo : String
  tuition : FeeItem
  exam : FeeItem
  transport : FeeItem
  hostel : FeeItem
  registration : FeeItem
  totalAmount : Int
  totalPaid : Int
  totalBalance : Int
  updatedAt : Nat
  recordedBy : String
deriving DecidableEq, Repr

/-- Indexing a Fee by category, the TS expression fee[feeType]. -/
def Fee.cat (f : Fee) : FeeCategory → FeeItem
  | .tuition => f.tuition
  | .exam => f.exam
  | .transport => f.transport
  | .hostel => f.hostel
  | .registration => f.registration

/-- Functional update of one category of a Fee, the TS assignment
fee[feeType] = item. -/
def Fee.setCat (f : Fee) : FeeCategory → FeeItem → Fee
  | .tuition, it => { f with tuition := it }
  | .exam, it => { f with exam := it }
  | .transport, it => { f with transport := it }
  | .hostel, it => { f with hostel := it }
  | .registration, it => { f with registration := it }

/-- A student roster row (the fields handleSaveFee copies into the profile). -/
structure Student where
  id : String
  name : String
  classId : String
  registerNo : String
deriving DecidableEq, Repr

/-- One appended payment row (FeeTransaction in lib/types.ts); the Firestore
auto document id is left out, timestamp is a Nat tick. -/
structure FeeTransaction where
  feeId : String
  feeType : FeeCategory
  amount : Int
  date : String
  recordedBy : String
  timestamp : Nat
deriving DecidableEq, Repr

/-- The fees collection: Firestore document id to document. -/
def Store : Type := String → Option Fee

/-- Writing one document of the fees collection (the committed effect of
setDoc / transaction.update at that id). -/
def updateStore (s : Store) (docId : String) (f : Fee) : Store :=
  fun k => if k = docId then some f else s k

/-- The persisted ledger: the fees collection plus the append-only list of all
payment rows (the transactions sub-collections, flattened; each row carries its
owning feeId). -/
structure LedgerState where
  fees : Store
  txns : List FeeTransaction

/-- The empty ledger: no fee documents, no payment rows. -/
def emptyState : LedgerState := ⟨fun _ => none, []⟩

/-- Profile lookup with implicit default, from getStudentFeeProfile: the
existing fee document of the student if any, else a fresh all-zero profile
carrying the student identity fields. -/
def getStudentFeeProfile (fees : Store) (student : Student) (now : Nat) : Fee :=
  match fees student.id with
  | some existingFee => existingFee
  | none =>
      { id := student.id
        studentId := student.id
        studentName := student.name
        classId := student.classId
        registerNo := student.registerNo
        tuition := defaultFeeItem
        exam := defaultFeeItem
        transport := defaultFeeItem
        hostel := defaultFeeItem
        registration := defaultFeeItem
        totalAmount := 0
        totalPaid := 0
        totalBalance := 0
        updatedAt := now
        recordedBy := "" }

/-- The document handleSaveFee builds and persists: each category taken from
feeData (missing categories default to the zero item), then
balance := total - paid per category, totalAmount / totalPaid summed over the
five categories with reduce, totalBalance := totalAmount - totalPaid, identity
fields copied from the student, recordedBy := staff.name. -/
def handleSaveFee (student : Student) (staffName : String)
    (feeData : FeeCategory → Option FeeItem) (now : Nat) : Fee :=
  let raw : FeeCategory → FeeItem := fun c => (feeData c).getD defaultFeeItem
  let item : FeeCategory → FeeItem :=
    fun c => { raw c with balance := (raw c).total - (raw c).paid }
  let totalAmount := feeCategories.foldl (fun sum c => sum + (item c).total) 0
  let totalPaid := feeCategories.foldl (fun sum c => sum + (item c).paid) 0
  { id := student.id
    studentId := student.id
    studentName := student.name
    classId := student.classId
    registerNo := student.registerNo
    tuition := item .tuition
    exam := item .exam
    transport := item .transport
    hostel := item .hostel
    registration := item .registration
    totalAmount := totalAmount
    totalPaid := totalPaid
    totalBalance := totalAmount - totalPaid
    updatedAt := now
    recordedBy := staffName }

/-- The form state FeeFormDialog submits: seeded with the full existing
profile (openFeeDialog passes getStudentFeeProfile), then handleCategoryChange
replaces the total of each edited category, keeping that category's existing
paid and balance. -/
def dialogFormData (existing : Fee) (edits : FeeCategory → Option Int) :
    FeeCategory → Option FeeItem :=
  fun c =>
    match edits c with
    | some t => some { existing.cat c with total := t }
    | none => some (existing.cat c)

/-- The whole Edit Fees flow on the persisted state: read the current profile
(or the zero default), apply the dialog's total edits, rebuild the document
with handleSaveFee and write it at the student's id. -/
def editFees (st : LedgerState) (student : Student) (edits : FeeCategory → Option Int)
    (staffName : String) (now : Nat) : LedgerState :=
  let existing := getStudentFeeProfile st.fees student now
  let newFee := handleSaveFee student staffName (dialogFormData existing edits) now
  { st with fees := updateStore st.fees student.id newFee }

/-- The profile update handleAddPayment's transaction writes: target category
paid := paid + amount and balance := total - newPaid, totalPaid += amount,
totalBalance -= amount, updatedAt refreshed; nothing else touched. -/
def applyPayment (f : Fee) (feeType : FeeCategory) (amount : Int) (now : Nat) : Fee :=
  let item := f.cat feeType
  let newPaidForCategory := item.paid + amount
  let newItem : FeeItem :=
    { item with paid := newPaidForCategory, balance := item.total - newPaidForCategory }
  let base : Fee :=
    { f with totalPaid := f.totalPaid + amount
             totalBalance := f.totalBalance - amount
             updatedAt := now }
  base.setCat feeType newItem

/-- Failure of the payment transaction: the fee document does not exist (the
thrown "Fee document does not exist!" path of handleAddPayment). -/
inductive PaymentError where
  | notFound
deriving DecidableEq, Repr

/-- The Add Payment mutation (handleAddPayment): one atomic Firestore
transaction that reads the fee document, aborts with notFound if it is
missing, and otherwise both updates the profile and appends exactly one
FeeTransaction row. -/
def handleAddPayment (st : LedgerState) (feeId : String) (feeType : FeeCategory)
    (paymentAmount : Int) (staffName : String) (dateStr : String) (now : Nat) :
    Except PaymentError LedgerState :=
  match st.fees feeId with
  | none => .error .notFound
  | some currentFeeData =>
      .ok { fees := updateStore st.fees feeId (applyPayment currentFeeData feeType paymentAmount now)
            txns := st.txns ++ [⟨feeId, feeType, paymentAmount, dateStr, staffName, now⟩] }

/-- The guard on PaymentDialog's submit button:
disabled = !amount || Number(amount) <= 0 || Number(amount) > maxAmount, with
maxAmount the selected category's balance and none standing for an empty
input. -/
def paymentSubmitDisabled (amount : Option Int) (maxAmount : Int) : Bool :=
  match amount with
  | none => true
  | some a => a == 0 || decide (a ≤ 0) || decide (maxAmount < a)

/-- The dashboard roll-up (feesSummary memo): sums by reduce over the listed
profiles, totalBalance as the difference of the two sums, and the three status
counts by filtering on totalBalance / totalPaid / totalAmount. -/
structure FeesSummary where
  totalAmount : Int
  totalPaid : Int
  totalBalance : Int
  paidCount : Nat
  partialCount : Nat
  unpaidCount : Nat
deriving DecidableEq, Repr

/-- Computation of the dashboard summary from the listed fee profiles,
mirroring the feesSummary memo in the FeesManager component. -/
def feesSummary (profiles : List Fee) : FeesSummary :=
  let totalAmount := profiles.foldl (fun sum fee => sum + fee.totalAmount) 0
  let totalPaid := profiles.foldl (fun sum fee => sum + fee.totalPaid) 0
  let totalBalance := totalAmount - totalPaid
  let paidCount := (profiles.filter fun f => decide (f.totalBalance ≤ 0) && decide (0 < f.totalAmount)).length
  let partialCount := (profiles.filter fun f => decide (0 < f.totalBalance) && decide (0 < f.totalPaid)).length
  let unpaidCount := (profiles.filter fun f => decide (0 < f.totalBalance) && (f.totalPaid == 0)).length
  { totalAmount := totalAmount
    totalPaid := totalPaid
    totalBalance := totalBalance
    paidCount := paidCount
    partialCount := partialCount
    unpaidCount := unpaidCount }

/-! Attendance grid (StudentAttendanceGridContent) and working-days page. -/

/-- One day of the year grid, carrying what the component derives from the
Date object: its formatted yyyy-MM-dd key, whether day <= today (the negation
of isFuture), and whether isSunday(day) holds. -/
structure GridDay where
  dateKey : String
  leToday : Bool
  sunday : Bool
deriving DecidableEq, Repr

/-- The attendance map: true on a date key iff some AttendanceRecord of the
student was formatted to that key (records are emitted only for absent
students, and every map entry gets status late). -/
def attendanceHas (recordDates : List String) (dateKey : String) : Bool :=
  recordDates.contains dateKey

/-- The per-day grid status classification (the days memo): future days are
default, Sundays and days the calendar does not explicitly mark working are
holiday, days with an attendance record are late, the rest present. -/
inductive DayStatus where
  | present
  | defaultStatus
  | holiday
  | late
deriving DecidableEq, Repr

/-- Classification of one day, mirroring the dayStatus chain of the days memo:
isWorkingDay := workingDaysMap.get(dateKey) ?? false, then the
future / sunday-or-not-working / record / present cascade. -/
def dayStatus (workingDaysMap : String → Option Bool) (recordDates : List String)
    (day : GridDay) : DayStatus :=
  let isWorkingDay := (workingDaysMap day.dateKey).getD false
  if !day.leToday then .defaultStatus
  else if day.sunday || !isWorkingDay then .holiday
  else if attendanceHas recordDates day.dateKey then .late
  else .present

/-- One step of the tally loop over yearDays: a day with day <= today, not a
Sunday and explicitly working bumps the working-day total, and also the
present total when the student has no record that day; every other day leaves
both totals alone.  The accumulator is (totalWorkingDays, totalPresentDays). -/
def tallyDay (workingDaysMap : String → Option Bool) (recordDates : List String)
    (acc : Nat × Nat) (day : GridDay) : Nat × Nat :=
  let isWorkingDay := (workingDaysMap day.dateKey).getD false
  if day.leToday && !day.sunday && isWorkingDay then
    (acc.1 + 1, if attendanceHas recordDates day.dateKey then acc.2 else acc.2 + 1)
  else acc

/-- The totals of the grid over a list of days:
(totalWorkingDays, totalPresentDays). -/
def attendanceTotals (workingDaysMap : String → Option Bool)
    (recordDates : List String) (days : List GridDay) : Nat × Nat :=
  days.foldl (tallyDay workingDaysMap recordDates) (0, 0)

/-- The working-days page disables calendar days with dayOfWeek 0 (Sundays),
the disabled={{dayOfWeek:[0]}} prop. -/
def workingDayDisabled (dayOfWeek : Nat) : Bool := dayOfWeek == 0

/-- The handleDayClick handler of the working-days page: a disabled day is
ignored; otherwise the date key is toggled from its current value (dates
absent from the map count as holiday) and written back. -/
def handleDayClick (workingDaysMap : String → Option Bool) (dateKey : String)
    (dayOfWeek : Nat) : String → Option Bool :=
  if workingDayDisabled dayOfWeek then workingDaysMap
  else
    let isCurrentlyWorking := (workingDaysMap dateKey).getD false
    let newIsWorking := !isCurrentlyWorking
    fun k => if k = dateKey then some newIsWorking else workingDaysMap k

/-! Reconciliation invariants and supporting lemmas. -/

/-- The reconciliation invariant of a fee profile: the aggregate equation and
the per-category balance equation. -/
def feeInvariant (f : Fee) : Prop :=
  f.totalBalance = f.totalAmount - f.totalPaid ∧
  ∀ c, (f.cat c).balance = (f.cat c).total - (f.cat c).paid

/-- Sum of the logged payment amounts of one (feeId, feeType) pair. -/
def txnSum (txns : List FeeTransaction) (feeId : String) (c : FeeCategory) : Int :=
  ((txns.filter fun t => t.feeId == feeId && t.feeType == c).map FeeTransaction.amount).sum

/-- The paid amount the store currently holds for one (feeId, category) pair;
zero when the fee document does not exist. -/
def paidAt (st : LedgerState) (feeId : String) (c : FeeCategory) : Int :=
  match st.fees feeId with
  | some f => (f.cat c).paid
  | none => 0

/-- States reachable from the empty store by the two mutations of the
FeesManager: Edit Fees and Add Payment. -/
inductive Reach : LedgerState → Prop where
  | empty : Reach emptyState
  | editStep (st : LedgerState) (student : Student) (edits : FeeCategory → Option Int)
      (sn : String) (now : Nat) : Reach st → Reach (editFees st student edits sn now)
  | payStep (st st2 : LedgerState) (feeId : String) (ft : FeeCategory) (a : Int)
      (sn d : String) (now : Nat) : Reach st →
      handleAddPayment st feeId ft a sn d now = .ok st2 → Reach st2

/-! Concrete instances used by witnesses and counterexamples. -/

/-- A concrete student. -/
def wStudent : Student := ⟨"s1", "A", "c1", "r1"⟩

/-- A concrete Edit Fees form submission: tuition total set to 100, the other
categories untouched. -/
def wEdits : FeeCategory → Option Int := fun c =>
  match c with
  | .tuition => some 100
  | _ => none

/-- The state after that one Edit Fees mutation on the empty store. -/
def wState : LedgerState := editFees emptyState wStudent wEdits "staff" 0

/-- The profile document that mutation stored at id s1. -/
def wFee : Fee :=
  handleSaveFee wStudent "staff"
    (dialogFormData (getStudentFeeProfile emptyState.fees wStudent 0) wEdits) 0

/-- The state after additionally paying 40 against the tuition category, the
value handleAddPayment returns on wState. -/
def wState2 : LedgerState :=
  { fees := updateStore wState.fees "s1" (applyPayment wFee .tuition 40 1)
    txns := wState.txns ++ [⟨"s1", .tuition, 40, "d", "staff", 1⟩] }

/-- A profile carrying its whole amount in the tuition category, used by the
dashboard scenario. -/
def exampleProfile (amount paid : Int) : Fee :=
  { id := "e"
    studentId := "e"
    studentName := "e"
    classId := "e"
    registerNo := "e"
    tuition := ⟨amount, paid, amount - paid⟩
    exam := defaultFeeItem
    transport := defaultFeeItem
    hostel := defaultFeeItem
    registration := defaultFeeItem
    totalAmount := amount
    totalPaid := paid
    totalBalance := amount - paid
    updatedAt := 0
    recordedBy := "" }

/-- Three profiles with balances 0, 500 and 1000, each with positive amount:
the dashboard aggregation scenario of the spec. -/
def exampleProfiles : List Fee :=
  [exampleProfile 1000 1000, exampleProfile 1000 500, exampleProfile 1000 0]

/-- The overpayment probe: tuition balance is 100 in wState, the attempted
payment is 150. -/
def overpayResult : Except PaymentError LedgerState :=
  handleAddPayment wState "s1" .tuition 150 "staff" "2025-01-01" 1

/-- A calendar holding exactly one working-day entry, on a date that falls on
a Sunday (2026-01-04). -/
def sundayCalendar : String → Option Bool :=
  fun k => if k = "2026-01-04" then some true else none

/-- That Sunday viewed from an earlier today: leToday is false, sunday true. -/
def futureSunday : GridDay := ⟨"2026-01-04", false, true⟩

theorem Fee.cat_setCat (f : Fee) (ft : FeeCategory) (it : FeeItem) (c : FeeCategory) :
    (f.setCat ft it).cat c = if c = ft then it else f.cat c := by
  cases ft <;> cases c <;> simp [Fee.setCat, Fee.cat]

theorem applyPayment_cat (f : Fee) (ft : FeeCategory) (a : Int) (now : Nat)
    (c : FeeCategory) :
    (applyPayment f ft a now).cat c =
      if c = ft then
        { f.cat ft with paid := (f.cat ft).paid + a,
                        balance := (f.cat ft).total - ((f.cat ft).paid + a) }
      else f.cat c := by
  unfold applyPayment
  cases ft <;> cases c <;> simp [Fee.setCat, Fee.cat]

theorem applyPayment_fields (f : Fee) (ft : FeeCategory) (a : Int) (now : Nat) :
    (applyPayment f ft a now).totalPaid = f.totalPaid + a ∧
    (applyPayment f ft a now).totalBalance = f.totalBalance - a ∧
    (applyPayment f ft a now).totalAmount = f.totalAmount ∧
    (applyPayment f ft a now).updatedAt = now ∧
    (applyPayment f ft a now).id = f.id ∧
    (applyPayment f ft a now).studentId = f.studentId ∧
    (applyPayment f ft a now).studentName = f.studentName ∧
    (applyPayment f ft a now).classId = f.classId ∧
    (applyPayment f ft a now).registerNo = f.registerNo ∧
    (applyPayment f ft a now).recordedBy = f.recordedBy := by
  unfold applyPayment
  cases ft <;> simp [Fee.setCat]

theorem handleSaveFee_cat (student : Student) (sn : String)
    (fd : FeeCategory → Option FeeItem) (now : Nat) (c : FeeCategory) :
    (handleSaveFee student sn fd now).cat c =
      { (fd c).getD defaultFeeItem with
        balance := ((fd c).getD defaultFeeItem).total - ((fd c).getD defaultFeeItem).paid } := by
  cases c <;> rfl

theorem dialogFormData_eq (existing : Fee) (edits : FeeCategory → Option Int)
    (c : FeeCategory) :
    (dialogFormData existing edits c).getD defaultFeeItem =
      { existing.cat c with total := (edits c).getD (existing.cat c).total } := by
  unfold dialogFormData
  cases edits c <;> simp

theorem editFees_fees (st : LedgerState) (student : Student)
    (edits : FeeCategory → Option Int) (sn : String) (now : Nat) (k : String) :
    (editFees st student edits sn now).fees k =
      if k = student.id then
        some (handleSaveFee student sn
          (dialogFormData (getStudentFeeProfile st.fees student now) edits) now)
      else st.fees k := rfl

theorem editFees_txns (st : LedgerState) (student : Student)
    (edits : FeeCategory → Option Int) (sn : String) (now : Nat) :
    (editFees st student edits sn now).txns = st.txns := rfl

theorem getStudentFeeProfile_cat_paid (fees : Store) (student : Student) (now : Nat)
    (c : FeeCategory) :
    ((getStudentFeeProfile fees student now).cat c).paid =
      match fees student.id with
      | some f => (f.cat c).paid
      | none => 0 := by
  unfold getStudentFeeProfile
  cases fees student.id with
  | none => cases c <;> rfl
  | some f => rfl

theorem txnSum_append_single (ts : List FeeTransaction) (tx : FeeTransaction)
    (feeId : String) (c : FeeCategory) :
    txnSum (ts ++ [tx]) feeId c =
      txnSum ts feeId c + (if tx.feeId = feeId ∧ tx.feeType = c then tx.amount else 0) := by
  unfold txnSum
  rw [List.filter_append]
  by_cases h : tx.feeId = feeId ∧ tx.feeType = c
  · obtain ⟨h1, h2⟩ := h
    simp [List.filter, h1, h2]
  · have hb : (tx.feeId == feeId && tx.feeType == c) = false := by
      rcases not_and_or.mp h with h1 | h1 <;> simp [h1]
    simp [List.filter, hb, h]

theorem applyPayment_invariant (f : Fee) (ft : FeeCategory) (a : Int) (now : Nat)
    (hpre : feeInvariant f) : feeInvariant (applyPayment f ft a now) := by
  obtain ⟨hagg, hcat⟩ := hpre
  obtain ⟨hP, hB, hA, -, -, -, -, -, -, -⟩ := applyPayment_fields f ft a now
  constructor
  · rw [hB, hA, hP, hagg]; ring
  · intro c
    rw [applyPayment_cat]
    by_cases hc : c = ft
    · simp [hc]
    · simp [hc, hcat c]

/-- C1: every FeeProfile produced by a mutation satisfies the reconciliation
equations totalBalance = totalAmount - totalPaid and, per category,
balance = total - paid: the document handleSaveFee writes satisfies them
unconditionally, and when the stored profile satisfied them before, the
profile stored by a successful handleAddPayment satisfies them afterwards. -/
theorem mutations_preserve_reconciliation
    (student : Student) (sn : String) (fd : FeeCategory → Option FeeItem) (now : Nat)
    (st : LedgerState) (feeId : String) (f : Fee) (ft : FeeCategory) (a : Int)
    (sn2 d : String) (now2 : Nat)
    (hf : st.fees feeId = some f) (hpre : feeInvariant f) :
    feeInvariant (handleSaveFee student sn fd now) ∧
    ∀ st2, handleAddPayment st feeId ft a sn2 d now2 = .ok st2 →
      ∀ g, st2.fees feeId = some g → feeInvariant g := by
  constructor
  · constructor
    · rfl
    · intro c
      rw [handleSaveFee_cat]
  · intro st2 hok g hg
    unfold handleAddPayment at hok
    rw [hf] at hok
    injection hok with hok
    subst hok
    simp only [updateStore, if_pos rfl] at hg
    injection hg with hg
    subst hg
    exact applyPayment_invariant f ft a now2 hpre

/-- C1 witness: a concrete store with one profile of invariant shape, a save
with empty form data, and a concrete payment. -/
theorem mutations_preserve_reconciliation_witness :
    feeInvariant (handleSaveFee ⟨"s1", "A", "c1", "r1"⟩ "staff" (fun _ => none) 7) ∧
    ∀ st2, handleAddPayment wState "s1" FeeCategory.tuition 40 "staff" "d" 1 = .ok st2 →
      ∀ g, st2.fees "s1" = some g → feeInvariant g :=
  mutations_preserve_reconciliation ⟨"s1", "A", "c1", "r1"⟩ "staff" (fun _ => none) 7
    wState "s1" wFee FeeCategory.tuition 40 "staff" "d" 1 rfl
    ⟨rfl, by intro c; cases c <;> rfl⟩

/-- C4: a payment of X on an existing profile updates exactly the expected
numbers and appends exactly one transaction row carrying amount X for that
(feeId, feeType). -/
theorem valid_payment_effect (st : LedgerState) (feeId : String) (f : Fee)
    (ft : FeeCategory) (X : Int) (sn d : String) (now : Nat)
    (hf : st.fees feeId = some f) (hpos : 0 < X) (hle : X ≤ (f.cat ft).balance) :
    handleAddPayment st feeId ft X sn d now =
      .ok ⟨updateStore st.fees feeId (applyPayment f ft X now),
           st.txns ++ [⟨feeId, ft, X, d, sn, now⟩]⟩ ∧
    ((applyPayment f ft X now).cat ft).paid = (f.cat ft).paid + X ∧
    ((applyPayment f ft X now).cat ft).balance = (f.cat ft).total - (f.cat ft).paid - X ∧
    (applyPayment f ft X now).totalPaid = f.totalPaid + X ∧
    (applyPayment f ft X now).totalBalance = f.totalBalance - X := by
  refine ⟨?_, ?_, ?_, (applyPayment_fields f ft X now).1, (applyPayment_fields f ft X now).2.1⟩
  · unfold handleAddPayment
    rw [hf]
  · rw [applyPayment_cat]
    simp
  · rw [applyPayment_cat]
    simp
    ring

/-- C4 witness: payment of 40 against a profile whose tuition balance is 100. -/
theorem valid_payment_effect_witness :
    ((applyPayment wFee FeeCategory.tuition 40 1).cat FeeCategory.tuition).paid =
      (wFee.cat FeeCategory.tuition).paid + 40 :=
  (valid_payment_effect wState "s1" wFee FeeCategory.tuition 40 "staff" "d" 1
    rfl (by decide) (by decide)).2.1

/-- C5: the payment transaction is all-or-nothing: on a missing fee document
it fails with notFound and yields no new state at all (store and log are the
caller's unchanged ones), and on success it performs both the profile update
and the single-row append. -/
theorem payment_all_or_nothing (st : LedgerState) (feeId : String) (ft : FeeCategory)
    (a : Int) (sn d : String) (now : Nat) :
    (st.fees feeId = none → handleAddPayment st feeId ft a sn d now = .error .notFound) ∧
    (∀ f, st.fees feeId = some f →
        handleAddPayment st feeId ft a sn d now =
          .ok ⟨updateStore st.fees feeId (applyPayment f ft a now),
               st.txns ++ [⟨feeId, ft, a, d, sn, now⟩]⟩) := by
  constructor
  · intro h
    unfold handleAddPayment
    rw [h]
  · intro f h
    unfold handleAddPayment
    rw [h]

/-- C5 witness: a payment against the empty store fails with notFound. -/
theorem payment_all_or_nothing_witness :
    handleAddPayment emptyState "s1" FeeCategory.tuition 40 "staff" "d" 1 =
      .error .notFound :=
  (payment_all_or_nothing emptyState "s1" FeeCategory.tuition 40 "staff" "d" 1).1 rfl

/-- C9: applying a payment leaves every field other than the target category's
paid and balance, totalPaid, totalBalance and updatedAt at its prior value:
all category totals, the other four category triples, totalAmount and the
identity fields. -/
theorem payment_frame_effect (f : Fee) (ft : FeeCategory) (a : Int) (now : Nat) :
    (∀ c, ((applyPayment f ft a now).cat c).total = (f.cat c).total) ∧
    (∀ c, c ≠ ft → (applyPayment f ft a now).cat c = f.cat c) ∧
    (applyPayment f ft a now).totalAmount = f.totalAmount ∧
    (applyPayment f ft a now).id = f.id ∧
    (applyPayment f ft a now).studentId = f.studentId ∧
    (applyPayment f ft a now).studentName = f.studentName ∧
    (applyPayment f ft a now).classId = f.classId ∧
    (applyPayment f ft a now).registerNo = f.registerNo ∧
    (applyPayment f ft a now).recordedBy = f.recordedBy := by
  obtain ⟨-, -, hA, -, hid, hsid, hname, hclass, hreg, hrec⟩ := applyPayment_fields f ft a now
  refine ⟨?_, ?_, hA, hid, hsid, hname, hclass, hreg, hrec⟩
  · intro c
    rw [applyPayment_cat]
    by_cases hc : c = ft
    · subst hc
      simp
    · simp [hc]
  · intro c hc
    rw [applyPayment_cat]
    simp [hc]

/-- C9 witness: the exam category of the concrete profile survives a tuition
payment unchanged. -/
theorem payment_frame_effect_witness :
    (applyPayment wFee FeeCategory.tuition 40 1).cat FeeCategory.exam =
      wFee.cat FeeCategory.exam :=
  (payment_frame_effect wFee FeeCategory.tuition 40 1).2.1 FeeCategory.exam (by decide)

theorem handleSaveFee_dialog_paid (student : Student) (sn : String) (existing : Fee)
    (edits : FeeCategory → Option Int) (now : Nat) (c : FeeCategory) :
    ((handleSaveFee student sn (dialogFormData existing edits) now).cat c).paid =
      (existing.cat c).paid := by
  rw [handleSaveFee_cat, dialogFormData_eq]

theorem updateStore_self (s : Store) (docId : String) (f : Fee) :
    updateStore s docId f docId = some f := by
  unfold updateStore
  rw [if_pos rfl]

theorem updateStore_other (s : Store) (docId k : String) (f : Fee) (h : k ≠ docId) :
    updateStore s docId f k = s k := by
  unfold updateStore
  rw [if_neg h]

theorem paidAt_eq_some (st : LedgerState) (feeId : String) (c : FeeCategory) (f : Fee)
    (h : st.fees feeId = some f) : paidAt st feeId c = (f.cat c).paid := by
  unfold paidAt
  rw [h]

theorem paidAt_eq_none (st : LedgerState) (feeId : String) (c : FeeCategory)
    (h : st.fees feeId = none) : paidAt st feeId c = 0 := by
  unfold paidAt
  rw [h]

theorem paidAt_editFees (st : LedgerState) (student : Student)
    (edits : FeeCategory → Option Int) (sn : String) (now : Nat) (feeId : String)
    (c : FeeCategory) :
    paidAt (editFees st student edits sn now) feeId c = paidAt st feeId c := by
  by_cases hk : feeId = student.id
  · subst hk
    have h1 : (editFees st student edits sn now).fees student.id =
        some (handleSaveFee student sn
          (dialogFormData (getStudentFeeProfile st.fees student now) edits) now) := by
      rw [editFees_fees, if_pos rfl]
    rw [paidAt_eq_some _ _ _ _ h1, handleSaveFee_dialog_paid, getStudentFeeProfile_cat_paid]
    rfl
  · have h1 : (editFees st student edits sn now).fees feeId = st.fees feeId := by
      rw [editFees_fees, if_neg hk]
    unfold paidAt
    rw [h1]

/-- C2: in every state reachable from the empty store by Edit Fees and Add
Payment, the sum of the logged transaction amounts of each (feeId, feeType)
pair equals that category's stored paid value. -/
theorem txn_log_matches_category_paid (st : LedgerState) (h : Reach st) :
    ∀ feeId c, txnSum st.txns feeId c = paidAt st feeId c := by
  induction h with
  | empty =>
      intro feeId c
      rfl
  | editStep st student edits sn now hst ih =>
      intro feeId c
      rw [editFees_txns, paidAt_editFees]
      exact ih feeId c
  | payStep st st2 feeId0 ft a sn d now hst hok ih =>
      intro feeId c
      unfold handleAddPayment at hok
      rcases hfind : st.fees feeId0 with - | f
      · rw [hfind] at hok
        exact absurd hok (by simp)
      · rw [hfind] at hok
        injection hok with hok
        have hfees : updateStore st.fees feeId0 (applyPayment f ft a now) = st2.fees :=
          congrArg LedgerState.fees hok
        have htxns : st.txns ++ [⟨feeId0, ft, a, d, sn, now⟩] = st2.txns :=
          congrArg LedgerState.txns hok
        rw [← htxns, txnSum_append_single]
        by_cases hk : feeId = feeId0
        · subst hk
          have hsome : st2.fees feeId = some (applyPayment f ft a now) := by
            rw [← hfees]
            exact updateStore_self st.fees feeId (applyPayment f ft a now)
          rw [paidAt_eq_some _ _ _ _ hsome, applyPayment_cat]
          have hpaid := ih feeId c
          rw [paidAt_eq_some _ _ _ _ hfind] at hpaid
          by_cases hc : c = ft
          · subst hc
            simp [hpaid]
          · have hc2 : ¬ (ft = c) := fun hh => hc hh.symm
            simp [hc, hc2, hpaid]
        · have hk2 : ¬ (feeId0 = feeId) := fun hh => hk hh.symm
          have h1 : st2.fees feeId = st.fees feeId := by
            rw [← hfees]
            exact updateStore_other st.fees feeId0 feeId (applyPayment f ft a now) hk
          have hp := ih feeId c
          unfold paidAt at hp ⊢
          rw [h1]
          simp [hk2, hp]

/-- C2 witness: the equation holds in the concrete state reached by one edit
followed by one payment of 40 against the tuition category. -/
theorem txn_log_matches_category_paid_witness :
    txnSum wState2.txns "s1" FeeCategory.tuition = paidAt wState2 "s1" FeeCategory.tuition :=
  txn_log_matches_category_paid wState2
    (Reach.payStep wState wState2 "s1" FeeCategory.tuition 40 "staff" "d" 1
      (Reach.editStep emptyState wStudent wEdits "staff" 0 Reach.empty) rfl)
    "s1" FeeCategory.tuition

theorem handleSaveFee_totals (student : Student) (sn : String)
    (fd : FeeCategory → Option FeeItem) (now : Nat) :
    (handleSaveFee student sn fd now).totalAmount =
      (feeCategories.map fun c => ((handleSaveFee student sn fd now).cat c).total).sum ∧
    (handleSaveFee student sn fd now).totalPaid =
      (feeCategories.map fun c => ((handleSaveFee student sn fd now).cat c).paid).sum := by
  constructor <;>
    simp [handleSaveFee, Fee.cat, feeCategories, add_assoc]

/-- C6: the Edit Fees flow overwrites the total of each edited category,
leaves the total of an unedited category at its prior value (zero for a brand
new profile, since the implicit default profile is all zero), preserves every
category's paid value, and recomputes all balances and the three aggregates. -/
theorem editFees_effect_and_frame (st : LedgerState) (student : Student)
    (edits : FeeCategory → Option Int) (sn : String) (now : Nat) (post : Fee)
    (hpost : (editFees st student edits sn now).fees student.id = some post) :
    (∀ c t, edits c = some t → (post.cat c).total = t) ∧
    (∀ c, edits c = none →
        (post.cat c).total = ((getStudentFeeProfile st.fees student now).cat c).total) ∧
    (∀ c, (post.cat c).paid = ((getStudentFeeProfile st.fees student now).cat c).paid) ∧
    (∀ c, (post.cat c).balance = (post.cat c).total - (post.cat c).paid) ∧
    post.totalAmount = (feeCategories.map fun c => (post.cat c).total).sum ∧
    post.totalPaid = (feeCategories.map fun c => (post.cat c).paid).sum ∧
    post.totalBalance = post.totalAmount - post.totalPaid ∧
    (st.fees student.id = none →
        ∀ c, ((getStudentFeeProfile st.fees student now).cat c).total = 0) := by
  rw [editFees_fees, if_pos rfl] at hpost
  injection hpost with hpost
  subst hpost
  refine ⟨?_, ?_, ?_, ?_, (handleSaveFee_totals _ _ _ _).1, (handleSaveFee_totals _ _ _ _).2,
    rfl, ?_⟩
  · intro c t hc
    rw [handleSaveFee_cat, dialogFormData_eq]
    simp [hc]
  · intro c hc
    rw [handleSaveFee_cat, dialogFormData_eq]
    simp [hc]
  · intro c
    exact handleSaveFee_dialog_paid student sn _ edits now c
  · intro c
    rw [handleSaveFee_cat]
  · intro hnone c
    unfold getStudentFeeProfile
    rw [hnone]
    cases c <;> rfl

/-- C6 witness: the concrete edit that sets the tuition total to 100 on the
empty store. -/
theorem editFees_effect_and_frame_witness :
    (wFee.cat FeeCategory.tuition).total = 100 ∧
    (wFee.cat FeeCategory.exam).paid =
      ((getStudentFeeProfile emptyState.fees wStudent 0).cat FeeCategory.exam).paid := by
  have h := editFees_effect_and_frame emptyState wStudent wEdits "staff" 0 wFee rfl
  exact ⟨h.1 FeeCategory.tuition 100 rfl, h.2.2.1 FeeCategory.exam⟩

theorem list_foldl_add (g : Fee → Int) (ps : List Fee) (init : Int) :
    ps.foldl (fun s f => s + g f) init = init + (ps.map g).sum := by
  induction ps generalizing init with
  | nil => simp
  | cons p ps ih =>
      rw [List.foldl_cons, ih]
      simp [add_assoc]

/-- C7: the dashboard summary returns the two sums over the listed profiles,
their difference as totalBalance, and the three status counts with the
fully-paid / partial / unpaid predicates; on the three-profile scenario with
balances 0, 500 and 1000 it yields paidCount 1 and totalBalance 1500. -/
theorem feesSummary_correct (ps : List Fee) :
    (feesSummary ps).totalAmount = (ps.map Fee.totalAmount).sum ∧
    (feesSummary ps).totalPaid = (ps.map Fee.totalPaid).sum ∧
    (feesSummary ps).totalBalance = (feesSummary ps).totalAmount - (feesSummary ps).totalPaid ∧
    (feesSummary ps).paidCount =
      ps.countP (fun f => decide (f.totalBalance ≤ 0) && decide (0 < f.totalAmount)) ∧
    (feesSummary ps).partialCount =
      ps.countP (fun f => decide (0 < f.totalBalance) && decide (0 < f.totalPaid)) ∧
    (feesSummary ps).unpaidCount =
      ps.countP (fun f => decide (0 < f.totalBalance) && (f.totalPaid == 0)) ∧
    (feesSummary exampleProfiles).paidCount = 1 ∧
    (feesSummary exampleProfiles).totalBalance = 1500 := by
  refine ⟨?_, ?_, rfl, ?_, ?_, ?_, by decide, by decide⟩
  · simpa using list_foldl_add Fee.totalAmount ps 0
  · simpa using list_foldl_add Fee.totalPaid ps 0
  · exact (List.countP_eq_length_filter _ _).symm
  · exact (List.countP_eq_length_filter _ _).symm
  · exact (List.countP_eq_length_filter _ _).symm

theorem getD_false_eq_beq (o : Option Bool) : o.getD false = (o == some true) := by
  cases o with
  | none => rfl
  | some b => cases b <;> rfl

theorem attendanceTotals_fold (wd : String → Option Bool) (records : List String)
    (days : List GridDay) (acc : Nat × Nat) :
    days.foldl (tallyDay wd records) acc =
      (acc.1 + days.countP (fun d => d.leToday && !d.sunday && (wd d.dateKey == some true)),
       acc.2 + days.countP (fun d => d.leToday && !d.sunday && (wd d.dateKey == some true)
         && !(attendanceHas records d.dateKey))) := by
  induction days generalizing acc with
  | nil => simp
  | cons d ds ih =>
      rw [List.foldl_cons, ih]
      unfold tallyDay
      rw [getD_false_eq_beq]
      by_cases h1 : (d.leToday && !d.sunday && (wd d.dateKey == some true)) = true
      · rw [if_pos h1]
        by_cases h2 : attendanceHas records d.dateKey = true
        · rw [if_pos h2]
          simp [List.countP_cons, h1, h2]
          omega
        · rw [if_neg h2]
          simp only [Bool.not_eq_true] at h2
          simp [List.countP_cons, h1, h2]
          omega
      · rw [if_neg h1]
        simp only [Bool.not_eq_true] at h1
        simp [List.countP_cons, h1]

/-- C8: over any list of grid days, the working-day total counts exactly the
days on or before today that are not Sundays and that the calendar explicitly
marks as working (dates absent from the calendar default to holiday), and the
present total counts exactly those of them on which the student has no
attendance record. -/
theorem attendance_tally_characterization (wd : String → Option Bool)
    (records : List String) (days : List GridDay) :
    (attendanceTotals wd records days).1 =
      days.countP (fun d => d.leToday && !d.sunday && (wd d.dateKey == some true)) ∧
    (attendanceTotals wd records days).2 =
      days.countP (fun d => d.leToday && !d.sunday && (wd d.dateKey == some true)
        && !(attendanceHas records d.dateKey)) := by
  unfold attendanceTotals
  rw [attendanceTotals_fold]
  exact ⟨by simp, by simp⟩

/-- C10 counterexample: a Sunday later than today that the calendar explicitly
marks working is classified defaultStatus by the grid, not holiday, refuting
the claim for future Sundays. -/
theorem future_sunday_not_classified_holiday :
    futureSunday.sunday = true ∧
    sundayCalendar futureSunday.dateKey = some true ∧
    dayStatus sundayCalendar [] futureSunday = DayStatus.defaultStatus ∧
    DayStatus.defaultStatus ≠ DayStatus.holiday := by
  refine ⟨rfl, by rfl, rfl, by decide⟩

/-- C10 amended: every Sunday on or before today is classified holiday by the
grid even when the calendar marks it working; every Sunday, past or future, is
excluded from the working-day and present tallies; and the working-days page
ignores clicks on Sundays (dayOfWeek 0 is disabled), leaving the calendar map
unchanged. -/
theorem sunday_holiday_amended (wd : String → Option Bool) (records : List String)
    (d : GridDay) (acc : Nat × Nat) (dateKey : String)
    (hsun : d.sunday = true) :
    (d.leToday = true → dayStatus wd records d = DayStatus.holiday) ∧
    tallyDay wd records acc d = acc ∧
    handleDayClick wd dateKey 0 = wd := by
  refine ⟨?_, ?_, rfl⟩
  · intro hle
    unfold dayStatus
    rw [hle, hsun]
    rfl
  · unfold tallyDay
    rw [hsun]
    simp

/-- C10 witness: a concrete non-future Sunday marked working in the calendar
is still shown as holiday, not tallied, and not toggleable. -/
theorem sunday_holiday_amended_witness :
    dayStatus sundayCalendar [] ⟨"2026-01-04", true, true⟩ = DayStatus.holiday ∧
    tallyDay sundayCalendar [] (3, 2) ⟨"2026-01-04", true, true⟩ = (3, 2) ∧
    handleDayClick sundayCalendar "2026-01-04" 0 = sundayCalendar := by
  have h := sunday_holiday_amended sundayCalendar [] ⟨"2026-01-04", true, true⟩ (3, 2)
    "2026-01-04" rfl
  exact ⟨h.1 rfl, h.2.1, h.2.2⟩

/-- C3 counterexample: in the concrete state whose tuition balance is 100, a
payment of 150 is not rejected by handleAddPayment: it succeeds, drives the
stored tuition to paid 150 and balance -50, and appends a transaction row. -/
theorem overpayment_accepted_by_recorder :
    ((wState.fees "s1").map fun f => f.tuition) = some ⟨100, 0, 100⟩ ∧
    (overpayResult.toOption.map fun st =>
        (((st.fees "s1").map fun f => f.tuition), st.txns.length)) =
      some (some ⟨100, 150, -50⟩, 1) := by
  exact ⟨rfl, rfl⟩

/-- C3 amended: handleAddPayment itself performs no overpayment validation:
on an existing profile it applies any amount, even one exceeding the
category's balance, updating the profile and appending the row; the only
guard is the PaymentDialog submit button, which is disabled whenever the
amount exceeds the selected category's balance (or is not positive). -/
theorem overpayment_guard_only_in_dialog (st : LedgerState) (feeId : String) (f : Fee)
    (ft : FeeCategory) (a : Int) (sn d : String) (now : Nat)
    (hf : st.fees feeId = some f) (hover : (f.cat ft).balance < a) :
    paymentSubmitDisabled (some a) ((f.cat ft).balance) = true ∧
    handleAddPayment st feeId ft a sn d now =
      .ok ⟨updateStore st.fees feeId (applyPayment f ft a now),
           st.txns ++ [⟨feeId, ft, a, d, sn, now⟩]⟩ ∧
    ((applyPayment f ft a now).cat ft).paid = (f.cat ft).paid + a := by
  refine ⟨?_, ?_, ?_⟩
  · unfold paymentSubmitDisabled
    simp [hover]
  · unfold handleAddPayment
    rw [hf]
  · rw [applyPayment_cat]
    simp

/-- C3 amended witness: the concrete overpayment of 150 against a tuition
balance of 100. -/
theorem overpayment_guard_only_in_dialog_witness :
    paymentSubmitDisabled (some 150) ((wFee.cat FeeCategory.tuition).balance) = true :=
  (overpayment_guard_only_in_dialog wState "s1" wFee FeeCategory.tuition 150 "staff"
    "2025-01-01" 1 rfl (by decide)).1

end SVCET
